import Mathlib

/-
Shallow embedding of the layout-flow engine of the goReportCard repository.

The embedded code is internal/pdf/writer.go (the authoritative variant) and,
where noted, the second observed variant of the same Writer embedded as a code
block inside report.md.  The gofpdf drawing surface is external: we model only
the quantities the layout policy reads and writes — the vertical cursor (GetXY
second component), the page height (GetPageSize second component), the current
page number (PageNo), and the Writer bookkeeping fields lastHeadingLevel,
lastLevel2Y, lastLevel2Page.  Go float64 measurements are modelled as exact
rationals; the actual drawn height of a wrapped text block (computed by the
surface in MultiCell / Write) is an explicit parameter dh of each emitter.
-/

/-- The fields of pdf.Writer read or written by the layout policy, plus the
cursor/page state the writer obtains from the drawing surface. -/
structure WriterState where
  y : ℚ
  pageHeight : ℚ
  page : ℤ
  lastHeadingLevel : ℤ
  lastLevel2Y : ℚ
  lastLevel2Page : ℤ
  deriving Repr, DecidableEq

/-- NewWriter sets margins (20, 30, 20): top content margin is 30mm; after
AddPage the surface places the cursor at the top margin. -/
def topMargin : ℚ := 30

/-- Every emitter uses marginBottom := 20.0. -/
def bottomMargin : ℚ := 20

/-- pdf.AddPage: new page, cursor back to the top content margin.  The Writer
bookkeeping fields are untouched. -/
def addPage (s : WriterState) : WriterState :=
  { s with page := s.page + 1, y := topMargin }

/-- remainingSpace := pageHeight - y - marginBottom, as computed in every
emitter of writer.go. -/
def remainingSpace (s : WriterState) : ℚ :=
  s.pageHeight - s.y - bottomMargin

/-- writer.go WriteHeading lines 137-179: the (thresholdY, minSpaceNeeded)
pair, including the level-3 parent-affinity adjustment that can set
thresholdY to 0 (immediate break) or tighten it to 30 percent. -/
def headingThresholds (level : ℤ) (s : WriterState) : ℚ × ℚ :=
  if level = 2 then
    (s.pageHeight * (40/100), 120)
  else if level = 3 then
    let t := s.pageHeight * (55/100)
    let m : ℚ := 70
    if s.lastLevel2Page = s.page ∧ 0 < s.lastLevel2Y then
      if s.y > t ∨ remainingSpace s < m then
        if s.lastLevel2Y > s.pageHeight * (40/100) then (0, 80)
        else if s.lastLevel2Y > s.pageHeight * (30/100) then (s.pageHeight * (30/100), 85)
        else (t, m)
      else (t, m)
    else (t, m)
  else if level = 1 then
    (s.pageHeight * (60/100), 90)
  else
    (s.pageHeight * (60/100), 50)

/-- writer.go WriteHeading lines 186-192: the break decision taken inside the
y > 40 guard (thresholdY = 0 requests an immediate break). -/
def headingShouldBreak (level : ℤ) (s : WriterState) : Bool :=
  let t := (headingThresholds level s).1
  let m := (headingThresholds level s).2
  if t = 0 then true else decide (s.y > t ∨ remainingSpace s < m)

/-- The overall page-break decision of WriteHeading: the decision above,
guarded by the not-at-the-very-top test y > 40 (line 182). -/
def headingBreaks (level : ℤ) (s : WriterState) : Bool :=
  if s.y > 40 then headingShouldBreak level s else false

/-- writer.go WriteHeading lines 181-199: past the top-of-page guard, either
AddPage or Ln(4); within the guard, nothing. -/
def headingAdvance (level : ℤ) (s : WriterState) : WriterState :=
  if headingBreaks level s then addPage s
  else if s.y > 40 then { s with y := s.y + 4 } else s

/-- writer.go WriteHeading: empty text returns immediately; otherwise decide
break/spacing, record a level-2 heading position BEFORE writing, draw the
heading cell (CellFormat height 12, then Ln(3)), and set lastHeadingLevel. -/
def writeHeading (level : ℤ) (text : String) (s : WriterState) : WriterState :=
  if text = "" then s
  else
    let s1 := headingAdvance level s
    let s2 := if level = 2 then
        { s1 with lastLevel2Y := s1.y, lastLevel2Page := s1.page }
      else s1
    { s2 with y := s2.y + 12 + 3, lastHeadingLevel := level }

/-- writer.go WriteParagraph lines 229-242: estimatedHeight 24; if the
paragraph follows a heading, break past 65 percent of the page or when the
remaining space is below the estimate plus a 20mm buffer; otherwise break
only on a pure space shortfall. -/
def paragraphBreaks (s : WriterState) : Bool :=
  if s.lastHeadingLevel > 0 then
    decide (s.y > s.pageHeight * (65/100) ∨ remainingSpace s < 24 + 20)
  else
    decide (remainingSpace s < 24)

/-- writer.go WriteParagraph: empty text is a no-op; otherwise break if
needed, draw MultiCell of actual height dh, Ln(4), and reset
lastHeadingLevel to 0. -/
def writeParagraph (dh : ℚ) (text : String) (s : WriterState) : WriterState :=
  if text = "" then s
  else
    let s1 := if paragraphBreaks s then addPage s else s
    { s1 with y := s1.y + dh + 4, lastHeadingLevel := 0 }

/-- writer.go WriteText: empty text is a no-op; otherwise Write(6, text)
advances the cursor by the drawn height dh.  lastHeadingLevel is untouched. -/
def writeText (dh : ℚ) (text : String) (s : WriterState) : WriterState :=
  if text = "" then s else { s with y := s.y + dh }

/-- writer.go WriteCode lines 269-279: estimatedHeight 20, break only on a
pure space shortfall. -/
def codeBreaks (s : WriterState) : Bool :=
  decide (remainingSpace s < 20)

/-- writer.go WriteCode: empty code is a no-op; otherwise break if needed,
draw MultiCell of actual height dh, Ln(3).  lastHeadingLevel is NOT reset. -/
def writeCode (dh : ℚ) (code : String) (s : WriterState) : WriterState :=
  if code = "" then s
  else
    let s1 := if codeBreaks s then addPage s else s
    { s1 with y := s1.y + dh + 3 }

/-- writer.go WriteThematicBreak: Ln(6), draw a line at the cursor (no
vertical advance), Ln(6).  Never breaks the page; lastHeadingLevel is NOT
reset. -/
def writeThematicBreak (s : WriterState) : WriterState :=
  { s with y := s.y + 6 + 6 }

/-- writer.go WriteListItem lines 317-332: estimatedHeight 10; following a
heading, break past 70 percent of the page or on a space shortfall;
otherwise break only on a space shortfall. -/
def listItemBreaks (s : WriterState) : Bool :=
  if s.lastHeadingLevel > 0 ∧
      (s.y > s.pageHeight * (70/100) ∨ remainingSpace s < 10) then true
  else decide (remainingSpace s < 10)

/-- writer.go WriteListItem lines 334-347: the display label resolved from
the marker byte and the caller-supplied ordinal (fmt.Sprintf of the index
for ordered markers with a positive index, bullet glyph otherwise). -/
def listItemLabel (marker : Char) (index : ℤ) : String :=
  if marker = '-' ∨ marker = '+' ∨ marker = '*' then "• "
  else if marker = '.' ∨ marker = ')' then
    if index > 0 then toString index ++ ". " else "• "
  else "• "

/-- writer.go WriteListItem: empty text is a no-op; otherwise break if
needed, draw MultiCell of actual height dh with the resolved label, Ln(2),
and reset lastHeadingLevel to 0. -/
def writeListItem (dh : ℚ) (text : String) (marker : Char) (index : ℤ)
    (s : WriterState) : WriterState :=
  if text = "" then s
  else
    let s1 := if listItemBreaks s then addPage s else s
    { s1 with y := s1.y + dh + 2, lastHeadingLevel := 0 }

/-- The level-3 heading decision computed from its own thresholds alone
(cursor past the 55 percent position threshold, or remaining space below the
70mm minimum), with no parent-affinity input. -/
def level3Base (s : WriterState) : Bool :=
  decide (s.y > s.pageHeight * (55/100) ∨ remainingSpace s < 70)

namespace ReportVariant

/-- report.md variant, WriteHeading lines 305-317: the per-level
minSpaceNeeded values of the second observed engine variant. -/
def headingMinSpace (level : ℤ) : ℚ :=
  if level = 2 then 100
  else if level = 3 then 60
  else if level = 1 then 80
  else 40

/-- report.md variant, WriteHeading lines 319-362: the shouldBreak decision
of the second observed engine variant, keyed on remaining space first, with
the level-3 parent-affinity branches and the level-2 borderline position
check. -/
def headingShouldBreak (level : ℤ) (s : WriterState) : Bool :=
  let m := headingMinSpace level
  if level = 3 then
    if s.lastLevel2Page = s.page ∧ 0 < s.lastLevel2Y then
      if remainingSpace s < m then
        if s.lastLevel2Y > s.pageHeight * (50/100) then true
        else if s.lastLevel2Y > s.pageHeight * (40/100) ∧
            remainingSpace s < m * (12/10) then true
        else decide (remainingSpace s < m)
      else false
    else decide (remainingSpace s < m)
  else
    if level = 2 ∧ remainingSpace s < m * (12/10) then
      if s.y > s.pageHeight * (65/100) then true
      else decide (remainingSpace s < m)
    else decide (remainingSpace s < m)

/-- report.md variant, WriteInlineCode: draws the code span at the current
position and moves only the horizontal cursor; the vertical cursor, page and
all Writer bookkeeping fields are unchanged. -/
def writeInlineCode (_code : String) (s : WriterState) : WriterState := s

/-- report.md variant, WriteHighlightedCode lines 565-587: empty code is a
no-op; otherwise the same 20mm space check as WriteCode, then the token
stream is drawn, advancing the cursor by the drawn height dh.
lastHeadingLevel is NOT reset. -/
def writeHighlightedCode (dh : ℚ) (code : String) (_language : String)
    (s : WriterState) : WriterState :=
  if code = "" then s
  else
    let s1 := if remainingSpace s < 20 then addPage s else s
    { s1 with y := s1.y + dh }

end ReportVariant

/-! ### Characterizations of the embedded decision functions -/

lemma headingThresholds_three (s : WriterState) :
    headingThresholds 3 s =
      (if s.lastLevel2Page = s.page ∧ 0 < s.lastLevel2Y then
        if s.y > s.pageHeight * (55/100) ∨ remainingSpace s < 70 then
          if s.lastLevel2Y > s.pageHeight * (40/100) then ((0 : ℚ), (80 : ℚ))
          else if s.lastLevel2Y > s.pageHeight * (30/100) then
            (s.pageHeight * (30/100), 85)
          else (s.pageHeight * (55/100), 70)
        else (s.pageHeight * (55/100), 70)
      else (s.pageHeight * (55/100), 70)) := by
  simp only [headingThresholds]
  norm_num

lemma headingShouldBreak_one (s : WriterState) :
    headingShouldBreak 1 s =
      if s.pageHeight * (60/100) = 0 then true
      else decide (s.y > s.pageHeight * (60/100) ∨ remainingSpace s < 90) := by
  simp only [headingShouldBreak, headingThresholds]
  norm_num

lemma headingShouldBreak_two (s : WriterState) :
    headingShouldBreak 2 s =
      if s.pageHeight * (40/100) = 0 then true
      else decide (s.y > s.pageHeight * (40/100) ∨ remainingSpace s < 120) := by
  simp only [headingShouldBreak, headingThresholds]
  norm_num

lemma headingShouldBreak_other (s : WriterState) (level : ℤ)
    (h1 : level ≠ 1) (h2 : level ≠ 2) (h3 : level ≠ 3) :
    headingShouldBreak level s =
      if s.pageHeight * (60/100) = 0 then true
      else decide (s.y > s.pageHeight * (60/100) ∨ remainingSpace s < 50) := by
  simp only [headingShouldBreak, headingThresholds, if_neg h1, if_neg h2, if_neg h3]

lemma level3_default_if (s : WriterState) (h40 : 40 < s.y) :
    (if s.pageHeight * (55/100) = 0 then true
     else decide (s.y > s.pageHeight * (55/100) ∨ remainingSpace s < 70)) =
      level3Base s := by
  by_cases h0 : s.pageHeight * (55/100) = 0
  · rw [if_pos h0]
    have hP : s.y > s.pageHeight * (55/100) ∨ remainingSpace s < 70 :=
      Or.inl (by rw [h0]; linarith)
    simp only [level3Base]
    exact (decide_eq_true hP).symm
  · rw [if_neg h0]; rfl

lemma headingShouldBreak_three (s : WriterState)
    (h40 : 40 < s.y) (hph : 0 ≤ s.pageHeight) :
    headingShouldBreak 3 s = level3Base s := by
  have h3055 : s.pageHeight * (30/100) ≤ s.pageHeight * (55/100) :=
    mul_le_mul_of_nonneg_left (by norm_num) hph
  by_cases hpar : s.lastLevel2Page = s.page ∧ 0 < s.lastLevel2Y
  · by_cases hnb : s.y > s.pageHeight * (55/100) ∨ remainingSpace s < 70
    · by_cases h40a : s.lastLevel2Y > s.pageHeight * (40/100)
      · simp only [headingShouldBreak, headingThresholds_three, if_pos hpar,
          if_pos hnb, if_pos h40a, level3Base]
        simp [decide_eq_true hnb]
      · by_cases h30a : s.lastLevel2Y > s.pageHeight * (30/100)
        · simp only [headingShouldBreak, headingThresholds_three, if_pos hpar,
            if_pos hnb, if_neg h40a, if_pos h30a, level3Base]
          by_cases h0 : s.pageHeight * (30/100) = 0
          · simp [h0, decide_eq_true hnb]
          · have hL : s.y > s.pageHeight * (30/100) ∨ remainingSpace s < 85 := by
              rcases hnb with h | h
              · exact Or.inl (by linarith)
              · exact Or.inr (by linarith)
            simp [if_neg h0, decide_eq_true hL, decide_eq_true hnb]
        · simp only [headingShouldBreak, headingThresholds_three, if_pos hpar,
            if_pos hnb, if_neg h40a, if_neg h30a]
          exact level3_default_if s h40
    · simp only [headingShouldBreak, headingThresholds_three, if_pos hpar,
        if_neg hnb]
      exact level3_default_if s h40
  · simp only [headingShouldBreak, headingThresholds_three, if_neg hpar]
    exact level3_default_if s h40

lemma variant_headingShouldBreak_three (s : WriterState) :
    ReportVariant.headingShouldBreak 3 s = decide (remainingSpace s < 60) := by
  simp only [ReportVariant.headingShouldBreak, ReportVariant.headingMinSpace]
  norm_num
  exact fun _ _ h => Or.inr (Or.inr h)

/-! ### Structural lemmas about the emitters -/

lemma headingAdvance_y (level : ℤ) (s : WriterState) :
    (headingAdvance level s).y =
      if headingBreaks level s then topMargin
      else if s.y > 40 then s.y + 4 else s.y := by
  simp only [headingAdvance, addPage]
  split_ifs <;> rfl

lemma headingAdvance_page (level : ℤ) (s : WriterState) :
    (headingAdvance level s).page =
      if headingBreaks level s then s.page + 1 else s.page := by
  simp only [headingAdvance, addPage]
  split_ifs <;> rfl

lemma headingAdvance_frame (level : ℤ) (s : WriterState) :
    (headingAdvance level s).lastLevel2Y = s.lastLevel2Y ∧
    (headingAdvance level s).lastLevel2Page = s.lastLevel2Page ∧
    (headingAdvance level s).pageHeight = s.pageHeight := by
  simp only [headingAdvance, addPage]
  split_ifs <;> exact ⟨rfl, rfl, rfl⟩

lemma writeHeading_y (level : ℤ) (text : String) (s : WriterState)
    (ht : text ≠ "") :
    (writeHeading level text s).y = (headingAdvance level s).y + 12 + 3 := by
  simp only [writeHeading, if_neg ht]
  split_ifs <;> rfl

lemma writeHeading_page (level : ℤ) (text : String) (s : WriterState)
    (ht : text ≠ "") :
    (writeHeading level text s).page =
      if headingBreaks level s then s.page + 1 else s.page := by
  have hadv := headingAdvance_page level s
  simp only [writeHeading, if_neg ht]
  by_cases h2 : level = 2
  · rw [if_pos h2]; exact hadv
  · rw [if_neg h2]; exact hadv

lemma writeParagraph_page (dh : ℚ) (text : String) (s : WriterState)
    (ht : text ≠ "") :
    (writeParagraph dh text s).page =
      if paragraphBreaks s then s.page + 1 else s.page := by
  simp only [writeParagraph, if_neg ht, addPage]
  split_ifs <;> rfl

lemma headingThresholds_minSpace_ge (level : ℤ) (s : WriterState) :
    50 ≤ (headingThresholds level s).2 := by
  simp only [headingThresholds]
  split_ifs <;> norm_num

lemma headingShouldBreak_false_space (level : ℤ) (s : WriterState)
    (h : headingShouldBreak level s = false) :
    (headingThresholds level s).2 ≤ remainingSpace s := by
  simp only [headingShouldBreak] at h
  split_ifs at h with h0
  have hn := of_decide_eq_false h
  push_neg at hn
  exact hn.2

/-! ### Claim theorems -/

/-- C1 counterexample: WriteCode on non-empty input does NOT clear
lastHeadingLevel; with a prior value of 2 the field still reads 2 (not 0)
after the call, refuting the claim that every non-heading emitter clears it. -/
theorem writeCode_keeps_lastHeadingLevel_cex :
    (writeCode 6 "x" ⟨100, 297, 1, 2, 0, 0⟩).lastHeadingLevel ≠ 0 := by
  have h : ("x" : String) ≠ "" := by decide
  norm_num [writeCode, codeBreaks, remainingSpace, bottomMargin, h]

/-- C1 (amended): after a non-heading emitter runs on non-empty input,
WriteParagraph and WriteListItem leave lastHeadingLevel at 0, while
WriteCode, WriteText, WriteThematicBreak (and the variant engine's
WriteInlineCode and WriteHighlightedCode) leave it unchanged from the prior
state — they do not clear it. -/
theorem nonheading_lastHeadingLevel (s : WriterState) (dh : ℚ)
    (text lang : String) (marker : Char) (index : ℤ) (htext : text ≠ "") :
    (writeParagraph dh text s).lastHeadingLevel = 0 ∧
    (writeListItem dh text marker index s).lastHeadingLevel = 0 ∧
    (writeCode dh text s).lastHeadingLevel = s.lastHeadingLevel ∧
    (writeText dh text s).lastHeadingLevel = s.lastHeadingLevel ∧
    (writeThematicBreak s).lastHeadingLevel = s.lastHeadingLevel ∧
    (ReportVariant.writeInlineCode text s).lastHeadingLevel =
      s.lastHeadingLevel ∧
    (ReportVariant.writeHighlightedCode dh text lang s).lastHeadingLevel =
      s.lastHeadingLevel := by
  refine ⟨?_, ?_, ?_, ?_, ?_, ?_, ?_⟩ <;>
    simp only [writeParagraph, writeListItem, writeCode, writeText,
      writeThematicBreak, ReportVariant.writeInlineCode,
      ReportVariant.writeHighlightedCode, if_neg htext, addPage] <;>
    split_ifs <;> rfl

/-- C1 amended witness: the amended statement at a concrete state and
inputs. -/
theorem nonheading_lastHeadingLevel_witness :
    (writeParagraph 12 "a" ⟨100, 297, 1, 3, 0, 0⟩).lastHeadingLevel = 0 ∧
    (writeListItem 6 "a" '-' 1 ⟨100, 297, 1, 3, 0, 0⟩).lastHeadingLevel = 0 ∧
    (writeCode 12 "a" ⟨100, 297, 1, 3, 0, 0⟩).lastHeadingLevel =
      (⟨100, 297, 1, 3, 0, 0⟩ : WriterState).lastHeadingLevel ∧
    (writeText 6 "a" ⟨100, 297, 1, 3, 0, 0⟩).lastHeadingLevel =
      (⟨100, 297, 1, 3, 0, 0⟩ : WriterState).lastHeadingLevel ∧
    (writeThematicBreak ⟨100, 297, 1, 3, 0, 0⟩).lastHeadingLevel =
      (⟨100, 297, 1, 3, 0, 0⟩ : WriterState).lastHeadingLevel ∧
    (ReportVariant.writeInlineCode "a" ⟨100, 297, 1, 3, 0, 0⟩).lastHeadingLevel =
      (⟨100, 297, 1, 3, 0, 0⟩ : WriterState).lastHeadingLevel ∧
    (ReportVariant.writeHighlightedCode 12 "a" "go"
        ⟨100, 297, 1, 3, 0, 0⟩).lastHeadingLevel =
      (⟨100, 297, 1, 3, 0, 0⟩ : WriterState).lastHeadingLevel :=
  nonheading_lastHeadingLevel ⟨100, 297, 1, 3, 0, 0⟩ 12 "a" "go" '-' 1
    (by decide)

/-- C9: calling WriteHeading, WriteParagraph, WriteCode or WriteListItem
with empty text is a complete no-op: the returned state equals the input
state, so nothing is drawn, the cursor does not move, no page is added, and
lastHeadingLevel / lastLevel2Y / lastLevel2Page are untouched. -/
theorem empty_text_noop (s : WriterState) (level : ℤ) (dh : ℚ)
    (marker : Char) (index : ℤ) :
    writeHeading level "" s = s ∧ writeParagraph dh "" s = s ∧
    writeCode dh "" s = s ∧ writeListItem dh "" marker index s = s := by
  refine ⟨?_, ?_, ?_, ?_⟩ <;>
    simp [writeHeading, writeParagraph, writeCode, writeListItem]

/-- C10: a page break (AddPage) never modifies the stored level-2 heading
position; every emitter other than a level-2 WriteHeading preserves
lastLevel2Y and lastLevel2Page; a level-2 WriteHeading with non-empty text
overwrites them with exactly the new heading's post-break cursor position
and page. -/
theorem level2_position_frame (s : WriterState) (level : ℤ) (text : String)
    (dh : ℚ) (marker : Char) (index : ℤ) (htext : text ≠ "") :
    ((addPage s).lastLevel2Y = s.lastLevel2Y ∧
      (addPage s).lastLevel2Page = s.lastLevel2Page) ∧
    (level ≠ 2 →
      (writeHeading level text s).lastLevel2Y = s.lastLevel2Y ∧
      (writeHeading level text s).lastLevel2Page = s.lastLevel2Page) ∧
    ((writeParagraph dh text s).lastLevel2Y = s.lastLevel2Y ∧
      (writeParagraph dh text s).lastLevel2Page = s.lastLevel2Page) ∧
    ((writeCode dh text s).lastLevel2Y = s.lastLevel2Y ∧
      (writeCode dh text s).lastLevel2Page = s.lastLevel2Page) ∧
    ((writeListItem dh text marker index s).lastLevel2Y = s.lastLevel2Y ∧
      (writeListItem dh text marker index s).lastLevel2Page =
        s.lastLevel2Page) ∧
    ((writeThematicBreak s).lastLevel2Y = s.lastLevel2Y ∧
      (writeThematicBreak s).lastLevel2Page = s.lastLevel2Page) ∧
    ((writeHeading 2 text s).lastLevel2Y = (headingAdvance 2 s).y ∧
      (writeHeading 2 text s).lastLevel2Page = (headingAdvance 2 s).page) := by
  refine ⟨⟨rfl, rfl⟩, ?_, ?_, ?_, ?_, ⟨rfl, rfl⟩, ?_⟩
  · intro h2
    have hf := headingAdvance_frame level s
    simp only [writeHeading, if_neg htext, if_neg h2]
    exact ⟨hf.1, hf.2.1⟩
  · simp only [writeParagraph, if_neg htext, addPage]
    split_ifs <;> exact ⟨rfl, rfl⟩
  · simp only [writeCode, if_neg htext, addPage]
    split_ifs <;> exact ⟨rfl, rfl⟩
  · simp only [writeListItem, if_neg htext, addPage]
    split_ifs <;> exact ⟨rfl, rfl⟩
  · simp only [writeHeading, if_neg htext, if_pos rfl]
    exact ⟨rfl, rfl⟩

/-- C10 witness: the frame statement at a concrete state and inputs. -/
theorem level2_position_frame_witness :
    ((addPage ⟨200, 297, 4, 0, 150, 4⟩).lastLevel2Y =
        (⟨200, 297, 4, 0, 150, 4⟩ : WriterState).lastLevel2Y ∧
      (addPage ⟨200, 297, 4, 0, 150, 4⟩).lastLevel2Page =
        (⟨200, 297, 4, 0, 150, 4⟩ : WriterState).lastLevel2Page) ∧
    ((3 : ℤ) ≠ 2 →
      (writeHeading 3 "h" ⟨200, 297, 4, 0, 150, 4⟩).lastLevel2Y =
        (⟨200, 297, 4, 0, 150, 4⟩ : WriterState).lastLevel2Y ∧
      (writeHeading 3 "h" ⟨200, 297, 4, 0, 150, 4⟩).lastLevel2Page =
        (⟨200, 297, 4, 0, 150, 4⟩ : WriterState).lastLevel2Page) ∧
    ((writeParagraph 12 "h" ⟨200, 297, 4, 0, 150, 4⟩).lastLevel2Y =
        (⟨200, 297, 4, 0, 150, 4⟩ : WriterState).lastLevel2Y ∧
      (writeParagraph 12 "h" ⟨200, 297, 4, 0, 150, 4⟩).lastLevel2Page =
        (⟨200, 297, 4, 0, 150, 4⟩ : WriterState).lastLevel2Page) ∧
    ((writeCode 12 "h" ⟨200, 297, 4, 0, 150, 4⟩).lastLevel2Y =
        (⟨200, 297, 4, 0, 150, 4⟩ : WriterState).lastLevel2Y ∧
      (writeCode 12 "h" ⟨200, 297, 4, 0, 150, 4⟩).lastLevel2Page =
        (⟨200, 297, 4, 0, 150, 4⟩ : WriterState).lastLevel2Page) ∧
    ((writeListItem 6 "h" '-' 1 ⟨200, 297, 4, 0, 150, 4⟩).lastLevel2Y =
        (⟨200, 297, 4, 0, 150, 4⟩ : WriterState).lastLevel2Y ∧
      (writeListItem 6 "h" '-' 1 ⟨200, 297, 4, 0, 150, 4⟩).lastLevel2Page =
        (⟨200, 297, 4, 0, 150, 4⟩ : WriterState).lastLevel2Page) ∧
    ((writeThematicBreak ⟨200, 297, 4, 0, 150, 4⟩).lastLevel2Y =
        (⟨200, 297, 4, 0, 150, 4⟩ : WriterState).lastLevel2Y ∧
      (writeThematicBreak ⟨200, 297, 4, 0, 150, 4⟩).lastLevel2Page =
        (⟨200, 297, 4, 0, 150, 4⟩ : WriterState).lastLevel2Page) ∧
    ((writeHeading 2 "h" ⟨200, 297, 4, 0, 150, 4⟩).lastLevel2Y =
        (headingAdvance 2 ⟨200, 297, 4, 0, 150, 4⟩).y ∧
      (writeHeading 2 "h" ⟨200, 297, 4, 0, 150, 4⟩).lastLevel2Page =
        (headingAdvance 2 ⟨200, 297, 4, 0, 150, 4⟩).page) :=
  level2_position_frame ⟨200, 297, 4, 0, 150, 4⟩ 3 "h" 12 '-' 1 (by decide)

/-- C4: a heading emitted while the cursor is within the 40mm top band of a
fresh page (the first heading or block of a fresh render; the top margin is
30mm) never breaks: the overall page-break decision is false regardless of
level, remaining space and affinity state, no page is added, and the cursor
advances only by the heading cell and its trailing gap (12 + 3), with no
extra pre-heading spacing. -/
theorem no_break_near_top (s : WriterState) (level : ℤ) (text : String)
    (htext : text ≠ "") (htop : s.y ≤ 40) :
    headingBreaks level s = false ∧
    (writeHeading level text s).page = s.page ∧
    (writeHeading level text s).y = s.y + 12 + 3 := by
  have hng : ¬ (s.y > 40) := not_lt.mpr htop
  have hb : headingBreaks level s = false := by
    simp [headingBreaks, hng]
  refine ⟨hb, ?_, ?_⟩
  · rw [writeHeading_page level text s htext, hb]
    rfl
  · rw [writeHeading_y level text s htext, headingAdvance_y, hb]
    simp [hng]

/-- C4 witness: a level-2 heading at cursor 35 on a fresh A4 page does not
break and moves the cursor to 50. -/
theorem no_break_near_top_witness :
    headingBreaks 2 ⟨35, 297, 1, 0, 0, 0⟩ = false ∧
    (writeHeading 2 "h" ⟨35, 297, 1, 0, 0, 0⟩).page =
      (⟨35, 297, 1, 0, 0, 0⟩ : WriterState).page ∧
    (writeHeading 2 "h" ⟨35, 297, 1, 0, 0, 0⟩).y =
      (⟨35, 297, 1, 0, 0, 0⟩ : WriterState).y + 12 + 3 :=
  no_break_near_top ⟨35, 297, 1, 0, 0, 0⟩ 2 "h" (by decide) (by norm_num)

/-- C2: when a level-2 heading is recorded on the current page at a position
past 40 percent of the page height, and a level-3 heading is emitted on the
same page past the top-of-page guard with insufficient remaining space for
its estimated need (70mm in writer.go, 60mm in the report.md variant), the
page-break decision is true and WriteHeading adds a page immediately. -/
theorem level3_escalation_breaks (s : WriterState) (text : String)
    (htext : text ≠ "") (h40 : 40 < s.y) (hph : 0 < s.pageHeight)
    (hpage : s.lastLevel2Page = s.page)
    (hlow : s.lastLevel2Y > s.pageHeight * (40/100)) :
    (remainingSpace s < 70 →
      headingShouldBreak 3 s = true ∧
      (writeHeading 3 text s).page = s.page + 1) ∧
    (remainingSpace s < 60 →
      ReportVariant.headingShouldBreak 3 s = true) := by
  constructor
  · intro hsp
    have hpos : 0 < s.lastLevel2Y :=
      lt_trans (by positivity) hlow
    have hdec : headingShouldBreak 3 s = true := by
      simp only [headingShouldBreak, headingThresholds_three,
        if_pos (And.intro hpage hpos), if_pos (Or.inr hsp), if_pos hlow]
      simp
    refine ⟨hdec, ?_⟩
    rw [writeHeading_page 3 text s htext]
    have : headingBreaks 3 s = true := by
      simp [headingBreaks, h40, hdec]
    rw [this]
    rfl
  · intro hsp
    rw [variant_headingShouldBreak_three]
    exact decide_eq_true hsp

/-- C2 witness: on A4 (height 297), a level-3 heading at cursor 250 with the
parent level-2 heading recorded at 150 on the same page breaks immediately. -/
theorem level3_escalation_breaks_witness :
    ((remainingSpace ⟨250, 297, 1, 0, 150, 1⟩ < 70 →
      headingShouldBreak 3 ⟨250, 297, 1, 0, 150, 1⟩ = true ∧
      (writeHeading 3 "h" ⟨250, 297, 1, 0, 150, 1⟩).page =
        (⟨250, 297, 1, 0, 150, 1⟩ : WriterState).page + 1) ∧
    (remainingSpace ⟨250, 297, 1, 0, 150, 1⟩ < 60 →
      ReportVariant.headingShouldBreak 3 ⟨250, 297, 1, 0, 150, 1⟩ = true)) :=
  level3_escalation_breaks ⟨250, 297, 1, 0, 150, 1⟩ "h" (by decide)
    (by norm_num) (by norm_num) rfl (by norm_num [remainingSpace])

/-- C3: for every layout state past the top-of-page guard, the level-3
page-break decision of WriteHeading, parent-affinity logic included, equals
the decision computed from the level-3 heading's own thresholds alone: in
writer.go, cursor past 55 percent of the page or remaining space below 70mm
(level3Base); in the report.md variant, remaining space below 60mm.  The
escalation branches only activate when that base decision already breaks. -/
theorem level3_affinity_no_effect (s : WriterState)
    (h40 : 40 < s.y) (hph : 0 ≤ s.pageHeight) :
    headingShouldBreak 3 s = level3Base s ∧
    ReportVariant.headingShouldBreak 3 s = decide (remainingSpace s < 60) :=
  ⟨headingShouldBreak_three s h40 hph, variant_headingShouldBreak_three s⟩

/-- C3 witness: the equivalence at a concrete state with a same-page
recorded level-2 heading. -/
theorem level3_affinity_no_effect_witness :
    headingShouldBreak 3 ⟨200, 297, 1, 0, 150, 1⟩ =
      level3Base ⟨200, 297, 1, 0, 150, 1⟩ ∧
    ReportVariant.headingShouldBreak 3 ⟨200, 297, 1, 0, 150, 1⟩ =
      decide (remainingSpace ⟨200, 297, 1, 0, 150, 1⟩ < 60) :=
  level3_affinity_no_effect ⟨200, 297, 1, 0, 150, 1⟩ (by norm_num) (by norm_num)

/-- C6: at equal cursor position (hence equal remaining space), the level-2
heading decision dominates those of level 1 and level 4-and-above: whenever a
level-1 or level-at-least-4 heading would break past the guard, a level-2
heading would too; and at some position (cursor 150 on A4) level 2 breaks
while level 1 continues — level 2 has the smaller position-fraction
threshold (40 percent versus 60 percent). -/
theorem level2_most_aggressive (s : WriterState) (hph : 0 ≤ s.pageHeight) :
    (headingShouldBreak 1 s = true → headingShouldBreak 2 s = true) ∧
    (∀ level : ℤ, 4 ≤ level →
      headingShouldBreak level s = true → headingShouldBreak 2 s = true) ∧
    (∃ s2 : WriterState, s2.y > 40 ∧ headingShouldBreak 2 s2 = true ∧
      headingShouldBreak 1 s2 = false) := by
  have h4060 : s.pageHeight * (40/100) ≤ s.pageHeight * (60/100) :=
    mul_le_mul_of_nonneg_left (by norm_num) hph
  have htwo : ∀ hsp : s.y > s.pageHeight * (60/100) ∨ remainingSpace s < 90 ∨
      remainingSpace s < 50, headingShouldBreak 2 s = true := by
    intro hsp
    rw [headingShouldBreak_two]
    by_cases h40 : s.pageHeight * (40/100) = 0
    · rw [if_pos h40]
    · rw [if_neg h40]
      apply decide_eq_true
      rcases hsp with h | h | h
      · exact Or.inl (by linarith)
      · exact Or.inr (by linarith)
      · exact Or.inr (by linarith)
  have hzero : s.pageHeight * (60/100) = 0 → headingShouldBreak 2 s = true := by
    intro h60
    have hph0 : s.pageHeight = 0 := by
      rcases mul_eq_zero.mp h60 with h | h
      · exact h
      · norm_num at h
    rw [headingShouldBreak_two, if_pos (by rw [hph0]; norm_num)]
  refine ⟨?_, ?_, ?_⟩
  · intro h1
    rw [headingShouldBreak_one] at h1
    by_cases h60 : s.pageHeight * (60/100) = 0
    · exact hzero h60
    · rw [if_neg h60] at h1
      rcases of_decide_eq_true h1 with h | h
      · exact htwo (Or.inl h)
      · exact htwo (Or.inr (Or.inl h))
  · intro level hlevel h4
    rw [headingShouldBreak_other s level (by omega) (by omega) (by omega)] at h4
    by_cases h60 : s.pageHeight * (60/100) = 0
    · exact hzero h60
    · rw [if_neg h60] at h4
      rcases of_decide_eq_true h4 with h | h
      · exact htwo (Or.inl h)
      · exact htwo (Or.inr (Or.inr h))
  · refine ⟨⟨150, 297, 1, 0, 0, 0⟩, by norm_num, ?_, ?_⟩
    · norm_num [headingShouldBreak, headingThresholds, remainingSpace,
        bottomMargin]
    · norm_num [headingShouldBreak, headingThresholds, remainingSpace,
        bottomMargin]

/-- C6 witness: the dominance statement instantiated on A4 at cursor 200,
where every heading level breaks. -/
theorem level2_most_aggressive_witness :
    (headingShouldBreak 1 ⟨200, 297, 1, 0, 0, 0⟩ = true →
      headingShouldBreak 2 ⟨200, 297, 1, 0, 0, 0⟩ = true) ∧
    (∀ level : ℤ, 4 ≤ level →
      headingShouldBreak level ⟨200, 297, 1, 0, 0, 0⟩ = true →
      headingShouldBreak 2 ⟨200, 297, 1, 0, 0, 0⟩ = true) ∧
    (∃ s2 : WriterState, s2.y > 40 ∧ headingShouldBreak 2 s2 = true ∧
      headingShouldBreak 1 s2 = false) :=
  level2_most_aggressive ⟨200, 297, 1, 0, 0, 0⟩ (by norm_num)

/-- C7: WriteParagraph with non-empty text breaks exactly when: following a
heading (lastHeadingLevel non-zero), the cursor is past 65 percent of the
page height or the remaining space is below the 24mm estimate plus a 20mm
buffer; with no preceding heading (lastHeadingLevel zero), the remaining
space is below the 24mm estimate alone. -/
theorem paragraph_break_iff (s : WriterState) (dh : ℚ) (text : String)
    (htext : text ≠ "") (hlvl : 0 ≤ s.lastHeadingLevel) :
    (s.lastHeadingLevel ≠ 0 →
      ((writeParagraph dh text s).page = s.page + 1 ↔
        (s.y > s.pageHeight * (65/100) ∨ remainingSpace s < 24 + 20))) ∧
    (s.lastHeadingLevel = 0 →
      ((writeParagraph dh text s).page = s.page + 1 ↔
        remainingSpace s < 24)) := by
  have hpage := writeParagraph_page dh text s htext
  have hnontriv : ¬ (s.page = s.page + 1) := by omega
  constructor
  · intro hne
    have hpos : 0 < s.lastHeadingLevel := lt_of_le_of_ne hlvl (Ne.symm hne)
    have hb : paragraphBreaks s =
        decide (s.y > s.pageHeight * (65/100) ∨ remainingSpace s < 24 + 20) := by
      simp [paragraphBreaks, hpos]
    rw [hpage, hb]
    by_cases hd : s.y > s.pageHeight * (65/100) ∨ remainingSpace s < 24 + 20
    · simp [decide_eq_true hd, hd]
    · simp [decide_eq_false hd, hd, hnontriv]
  · intro hz
    have hb : paragraphBreaks s = decide (remainingSpace s < 24) := by
      simp [paragraphBreaks, hz]
    rw [hpage, hb]
    by_cases hd : remainingSpace s < 24
    · simp [decide_eq_true hd, hd]
    · simp [decide_eq_false hd, hd, hnontriv]

/-- C7 witness: concrete checks of both directions: a paragraph after a
heading at cursor 200 on A4 (past 65 percent) breaks; the same paragraph
with no preceding heading (remaining space 77, at least 24) does not. -/
theorem paragraph_break_iff_witness :
    (((3 : ℤ) ≠ 0 →
      ((writeParagraph 12 "p" ⟨200, 297, 1, 3, 0, 0⟩).page =
          (⟨200, 297, 1, 3, 0, 0⟩ : WriterState).page + 1 ↔
        ((200 : ℚ) > (297 : ℚ) * (65/100) ∨
          remainingSpace ⟨200, 297, 1, 3, 0, 0⟩ < 24 + 20))) ∧
    ((3 : ℤ) = 0 →
      ((writeParagraph 12 "p" ⟨200, 297, 1, 3, 0, 0⟩).page =
          (⟨200, 297, 1, 3, 0, 0⟩ : WriterState).page + 1 ↔
        remainingSpace ⟨200, 297, 1, 3, 0, 0⟩ < 24))) ∧
    (((0 : ℤ) ≠ 0 →
      ((writeParagraph 12 "p" ⟨200, 297, 1, 0, 0, 0⟩).page =
          (⟨200, 297, 1, 0, 0, 0⟩ : WriterState).page + 1 ↔
        ((200 : ℚ) > (297 : ℚ) * (65/100) ∨
          remainingSpace ⟨200, 297, 1, 0, 0, 0⟩ < 24 + 20))) ∧
    ((0 : ℤ) = 0 →
      ((writeParagraph 12 "p" ⟨200, 297, 1, 0, 0, 0⟩).page =
          (⟨200, 297, 1, 0, 0, 0⟩ : WriterState).page + 1 ↔
        remainingSpace ⟨200, 297, 1, 0, 0, 0⟩ < 24))) :=
  ⟨paragraph_break_iff ⟨200, 297, 1, 3, 0, 0⟩ 12 "p" (by decide) (by norm_num),
   paragraph_break_iff ⟨200, 297, 1, 0, 0, 0⟩ 12 "p" (by decide) (by norm_num)⟩

/-- C8: list-item label resolution: markers -, + and * give the bullet
label; markers . and ) with ordinal at least 1 give the numbered label;
markers . and ) with ordinal at most 0 fall back to the bullet (never a
zero or negative number); any other marker gives the bullet. -/
theorem listItemLabel_resolution (marker : Char) (index : ℤ) :
    ((marker = '-' ∨ marker = '+' ∨ marker = '*') →
      listItemLabel marker index = "• ") ∧
    ((marker = '.' ∨ marker = ')') → 1 ≤ index →
      listItemLabel marker index = toString index ++ ". ") ∧
    ((marker = '.' ∨ marker = ')') → index ≤ 0 →
      listItemLabel marker index = "• ") ∧
    ((marker ≠ '-' ∧ marker ≠ '+' ∧ marker ≠ '*' ∧ marker ≠ '.' ∧
        marker ≠ ')') → listItemLabel marker index = "• ") := by
  refine ⟨?_, ?_, ?_, ?_⟩
  · intro h
    simp only [listItemLabel, if_pos h]
  · intro h hidx
    have hnu : ¬ (marker = '-' ∨ marker = '+' ∨ marker = '*') := by
      rcases h with h | h <;> subst h <;> decide
    simp only [listItemLabel, if_neg hnu, if_pos h,
      if_pos (show index > 0 by omega)]
  · intro h hidx
    have hnu : ¬ (marker = '-' ∨ marker = '+' ∨ marker = '*') := by
      rcases h with h | h <;> subst h <;> decide
    simp only [listItemLabel, if_neg hnu, if_pos h,
      if_neg (show ¬ index > 0 by omega)]
  · intro h
    obtain ⟨h1, h2, h3, h4, h5⟩ := h
    simp [listItemLabel, h1, h2, h3, h4, h5]

/-- C8 witness: marker . with ordinal 3 gives the numbered label; marker )
with ordinal 0 and marker - give the bullet. -/
theorem listItemLabel_resolution_witness :
    listItemLabel '.' 3 = toString (3 : ℤ) ++ ". " ∧
    listItemLabel ')' 0 = "• " ∧ listItemLabel '-' 5 = "• " :=
  ⟨(listItemLabel_resolution '.' 3).2.1 (Or.inl rfl) (by norm_num),
   (listItemLabel_resolution ')' 0).2.2.1 (Or.inr rfl) (by norm_num),
   (listItemLabel_resolution '-' 5).1 (Or.inl rfl)⟩

lemma writeParagraph_y (dh : ℚ) (text : String) (s : WriterState)
    (ht : text ≠ "") :
    (writeParagraph dh text s).y =
      (if paragraphBreaks s then topMargin else s.y) + dh + 4 := by
  simp only [writeParagraph, if_neg ht, addPage]
  split_ifs <;> rfl

lemma writeCode_y (dh : ℚ) (code : String) (s : WriterState)
    (ht : code ≠ "") :
    (writeCode dh code s).y =
      (if codeBreaks s then topMargin else s.y) + dh + 3 := by
  simp only [writeCode, if_neg ht, addPage]
  split_ifs <;> rfl

lemma writeListItem_y (dh : ℚ) (text : String) (marker : Char) (index : ℤ)
    (s : WriterState) (ht : text ≠ "") :
    (writeListItem dh text marker index s).y =
      (if listItemBreaks s then topMargin else s.y) + dh + 2 := by
  simp only [writeListItem, if_neg ht, addPage]
  split_ifs <;> rfl

/-- C5 counterexample: a paragraph whose actual drawn height (60mm, ten
6mm lines) exceeds the fixed 24mm estimate, emitted at cursor 247 on A4
with no preceding heading: remaining space is 30, at least the estimate, so
no page break occurs first (the page stays 1), yet the cursor lands at 311,
past pageHeight - bottomMargin = 277 — refuting the claimed invariant for
texts taller than the per-kind estimate. -/
theorem paragraph_overflow_cex :
    (writeParagraph 60 "t" ⟨247, 297, 1, 0, 0, 0⟩).page =
      (⟨247, 297, 1, 0, 0, 0⟩ : WriterState).page ∧
    (writeParagraph 60 "t" ⟨247, 297, 1, 0, 0, 0⟩).y >
      (⟨247, 297, 1, 0, 0, 0⟩ : WriterState).pageHeight - bottomMargin := by
  have h : ("t" : String) ≠ "" := by decide
  norm_num [writeParagraph, paragraphBreaks, remainingSpace, bottomMargin, h]

/-- C5 (amended): immediately after any emit call the cursor stays within
[topMargin, pageHeight - bottomMargin] PROVIDED the block's actual drawn
height plus its trailing gap is within the fixed per-kind estimate (24mm
paragraph, 20mm code, 10mm list item; headings draw a fixed 12 + 3), the
pre-state cursor was within bounds, and the page is at least 75mm tall; the
policy breaks first only when the remaining space is below the fixed
estimate, so a text drawn taller than its estimate can push the cursor past
the bottom bound without a preceding break. -/
theorem cursor_bounds_within_estimates (s : WriterState) (level : ℤ)
    (dhP dhC dhL : ℚ) (textH textP textC textL : String)
    (marker : Char) (index : ℤ)
    (hy0 : topMargin ≤ s.y) (hy1 : s.y ≤ s.pageHeight - bottomMargin)
    (hph : 75 ≤ s.pageHeight)
    (hP0 : 0 ≤ dhP) (hPe : dhP + 4 ≤ 24)
    (hC0 : 0 ≤ dhC) (hCe : dhC + 3 ≤ 20)
    (hL0 : 0 ≤ dhL) (hLe : dhL + 2 ≤ 10) :
    (topMargin ≤ (writeHeading level textH s).y ∧
      (writeHeading level textH s).y ≤ s.pageHeight - bottomMargin) ∧
    (topMargin ≤ (writeParagraph dhP textP s).y ∧
      (writeParagraph dhP textP s).y ≤ s.pageHeight - bottomMargin) ∧
    (topMargin ≤ (writeCode dhC textC s).y ∧
      (writeCode dhC textC s).y ≤ s.pageHeight - bottomMargin) ∧
    (topMargin ≤ (writeListItem dhL textL marker index s).y ∧
      (writeListItem dhL textL marker index s).y ≤
        s.pageHeight - bottomMargin) := by
  refine ⟨?_, ?_, ?_, ?_⟩
  · by_cases ht : textH = ""
    · simp only [writeHeading, if_pos ht]
      exact ⟨hy0, hy1⟩
    · rw [writeHeading_y level textH s ht, headingAdvance_y]
      by_cases hbk : headingBreaks level s = true
      · rw [if_pos hbk]
        simp only [topMargin, bottomMargin] at *
        constructor <;> linarith
      · rw [if_neg hbk]
        by_cases h40 : s.y > 40
        · rw [if_pos h40]
          have hsb : headingShouldBreak level s = false := by
            simp only [headingBreaks, if_pos h40] at hbk
            simpa using hbk
          have h50 := le_trans (headingThresholds_minSpace_ge level s)
            (headingShouldBreak_false_space level s hsb)
          simp only [remainingSpace, topMargin, bottomMargin] at *
          constructor <;> linarith
        · rw [if_neg h40]
          push_neg at h40
          simp only [topMargin, bottomMargin] at *
          constructor <;> linarith
  · by_cases ht : textP = ""
    · simp only [writeParagraph, if_pos ht]
      exact ⟨hy0, hy1⟩
    · rw [writeParagraph_y dhP textP s ht]
      by_cases hbk : paragraphBreaks s = true
      · rw [if_pos hbk]
        simp only [topMargin, bottomMargin] at *
        constructor <;> linarith
      · have hbk' : paragraphBreaks s = false := by simpa using hbk
        have h24 : 24 ≤ remainingSpace s := by
          by_cases hl : s.lastHeadingLevel > 0
          · simp only [paragraphBreaks, if_pos hl] at hbk'
            have hn := of_decide_eq_false hbk'
            push_neg at hn
            linarith [hn.2]
          · simp only [paragraphBreaks, if_neg hl] at hbk'
            have hn := of_decide_eq_false hbk'
            push_neg at hn
            linarith
        rw [if_neg hbk]
        simp only [remainingSpace, topMargin, bottomMargin] at *
        constructor <;> linarith
  · by_cases ht : textC = ""
    · simp only [writeCode, if_pos ht]
      exact ⟨hy0, hy1⟩
    · rw [writeCode_y dhC textC s ht]
      by_cases hbk : codeBreaks s = true
      · rw [if_pos hbk]
        simp only [topMargin, bottomMargin] at *
        constructor <;> linarith
      · have hbk' : codeBreaks s = false := by simpa using hbk
        have h20 : 20 ≤ remainingSpace s := by
          simp only [codeBreaks] at hbk'
          have hn := of_decide_eq_false hbk'
          push_neg at hn
          linarith
        rw [if_neg hbk]
        simp only [remainingSpace, topMargin, bottomMargin] at *
        constructor <;> linarith
  · by_cases ht : textL = ""
    · simp only [writeListItem, if_pos ht]
      exact ⟨hy0, hy1⟩
    · rw [writeListItem_y dhL textL marker index s ht]
      by_cases hbk : listItemBreaks s = true
      · rw [if_pos hbk]
        simp only [topMargin, bottomMargin] at *
        constructor <;> linarith
      · have hbk' : listItemBreaks s = false := by simpa using hbk
        have h10 : 10 ≤ remainingSpace s := by
          simp only [listItemBreaks] at hbk'
          split_ifs at hbk'
          have hn := of_decide_eq_false hbk'
          push_neg at hn
          linarith
        rw [if_neg hbk]
        simp only [remainingSpace, topMargin, bottomMargin] at *
        constructor <;> linarith

/-- C5 amended witness: the bounds at a concrete mid-page state with drawn
heights within the estimates. -/
theorem cursor_bounds_within_estimates_witness :
    (topMargin ≤ (writeHeading 1 "h" ⟨100, 297, 1, 0, 0, 0⟩).y ∧
      (writeHeading 1 "h" ⟨100, 297, 1, 0, 0, 0⟩).y ≤
        (297 : ℚ) - bottomMargin) ∧
    (topMargin ≤ (writeParagraph 18 "p" ⟨100, 297, 1, 0, 0, 0⟩).y ∧
      (writeParagraph 18 "p" ⟨100, 297, 1, 0, 0, 0⟩).y ≤
        (297 : ℚ) - bottomMargin) ∧
    (topMargin ≤ (writeCode 12 "c" ⟨100, 297, 1, 0, 0, 0⟩).y ∧
      (writeCode 12 "c" ⟨100, 297, 1, 0, 0, 0⟩).y ≤
        (297 : ℚ) - bottomMargin) ∧
    (topMargin ≤ (writeListItem 6 "l" '-' 1 ⟨100, 297, 1, 0, 0, 0⟩).y ∧
      (writeListItem 6 "l" '-' 1 ⟨100, 297, 1, 0, 0, 0⟩).y ≤
        (297 : ℚ) - bottomMargin) :=
  cursor_bounds_within_estimates ⟨100, 297, 1, 0, 0, 0⟩ 1 18 12 6
    "h" "p" "c" "l" '-' 1
    (by norm_num [topMargin]) (by norm_num [bottomMargin]) (by norm_num)
    (by norm_num) (by norm_num) (by norm_num) (by norm_num) (by norm_num)
    (by norm_num)
